import Mathlib

set_option maxRecDepth 10000

/-
Verification of the Strategy Monitoring & Alerting Engine of the
zerodha-alog repository, as a shallow embedding in Lean 4.

Prices are modelled as rationals (ℚ); the pandas NaN values that arise in
the source (the first `diff` entry, rolling windows shorter than their
minimum, and the 0/0 relative-strength division) are modelled explicitly:
the first delta is materialised as a zero gain/loss entry exactly as
`delta.where(delta > 0, 0)` does, under-full rolling windows and NaN
indicator values are `Option.none`, and every comparison against `none`
is false, matching Python float NaN comparison semantics.

The two monitor variants present in the source are embedded separately:
`Application/gui_modern.py` (functions `do_rsi_analysis`,
`do_donchian_analysis`, `rsi_worker`, `donchian_worker`,
`launch_rsi_monitor`, `_resolve_instrument_token`) and
`Application/main_enhanced.py` (`rsi_worker` inside `start_rsi_monitor`,
`donchian_worker` inside `start_donchian_monitor`).
-/

namespace ZerodhaAlog

/-- One OHLC candle: bar-close timestamp (abstracted to a natural number;
the source keys its dedup store on the ISO timestamp string) and the four
price fields.  `opn` stands for the source's `open` column, which is a
reserved word in Lean. -/
structure Candle where
  ts : Nat
  opn : ℚ
  high : ℚ
  low : ℚ
  close : ℚ
deriving Repr, DecidableEq

/-- `close.diff()` without its leading NaN: the list of successive
differences `close[i+1] - close[i]`. -/
def diffs : List ℚ → List ℚ
  | [] => []
  | c :: cs => List.zipWith (fun b a => b - a) cs (c :: cs)

/-- `delta.where(delta > 0, 0)` applied to one delta. -/
def gainOf (d : ℚ) : ℚ := if 0 < d then d else 0

/-- `(-delta).where(delta < 0, 0)` applied to one delta. -/
def lossOf (d : ℚ) : ℚ := if d < 0 then -d else 0

/-- The gain series the source materialises from a close series: the NaN
first entry of `close.diff()` becomes 0 under `where`, so the list starts
with a zero followed by the clamped deltas. -/
def gains : List ℚ → List ℚ
  | [] => []
  | c :: cs => 0 :: (diffs (c :: cs)).map gainOf

/-- The loss series the source materialises, symmetric to `gains`. -/
def losses : List ℚ → List ℚ
  | [] => []
  | c :: cs => 0 :: (diffs (c :: cs)).map lossOf

/-- One step of the in-place Wilder loop of `gui_modern.do_rsi_analysis`:
`avg.iloc[i] = (avg.iloc[i-1] * (period - 1) + x.iloc[i]) / period`. -/
def wilderStep (period : Nat) (a x : ℚ) : ℚ :=
  (a * ((period : ℚ) - 1) + x) / (period : ℚ)

/-- Value at the last index of the smoothed-average series that
`gui_modern.do_rsi_analysis` builds: a seed
`rolling(window=period, min_periods=period).mean()` (so the value at index
`period - 1` is the simple mean of the first `period` entries) overwritten
from index `period` on by the in-place Wilder loop.  `none` models the NaN
produced when the series is shorter than `period`. -/
def smoothLast (period : Nat) (xs : List ℚ) : Option ℚ :=
  if xs.length < period then none
  else some ((xs.drop period).foldl (wilderStep period)
    ((xs.take period).sum / (period : ℚ)))

/-- Value at the last index of `xs.rolling(window=w).mean()`: the simple
mean of the final `w` entries, NaN (`none`) when fewer than `w` exist.
Used by `main_enhanced.rsi_worker`. -/
def rollMeanLast (w : Nat) (xs : List ℚ) : Option ℚ :=
  if xs.length < w then none
  else some ((xs.drop (xs.length - w)).sum / (w : ℚ))

/-- `rsi = 100 - (100 / (1 + rs))` with `rs = avg_gain / avg_loss`, under
pandas float semantics: a zero average loss with a positive average gain
gives `rs = inf` hence `rsi = 100`; `0/0` gives NaN (`none`), and every
later comparison against it is false. -/
def rsiOfAvg (ag al : ℚ) : Option ℚ :=
  if al = 0 then (if ag = 0 then none else some 100)
  else some (100 - 100 / (1 + ag / al))

/-- The RSI value `float(rsi.iloc[-1])` computed by
`gui_modern.do_rsi_analysis` (lines 1393-1403) from a close series:
gain/loss clamping, seeded rolling mean, in-place Wilder loop, then the
`rs`/`rsi` formulas. -/
def rsiGuiModern (closes : List ℚ) (period : Nat) : Option ℚ :=
  (smoothLast period (gains closes)).bind fun ag =>
    (smoothLast period (losses closes)).bind fun al => rsiOfAvg ag al

/-- The RSI value computed by `main_enhanced.rsi_worker` (lines 833-839):
plain `rolling(window=14).mean()` of gains and losses - no Wilder
recurrence - then the same `rs`/`rsi` formulas. -/
def rsiEnhanced (closes : List ℚ) : Option ℚ :=
  (rollMeanLast 14 (gains closes)).bind fun ag =>
    (rollMeanLast 14 (losses closes)).bind fun al => rsiOfAvg ag al

/-- Wilder RSI exactly as the specification words it (§3, §8): defined
only when at least `period + 1` closes exist; the gains/losses of the
first `period` true deltas seed simple averages; each later delta updates
them through the Wilder recurrence; `rs = avgGain/avgLoss`,
`rsi = 100 - 100/(1+rs)`, with the §8 conventions `avgLoss = 0 ∧
avgGain > 0 ⇒ 100` and `avgGain = avgLoss = 0 ⇒ 50`. -/
def wilderRSI (closes : List ℚ) (period : Nat) : Option ℚ :=
  if closes.length < period + 1 then none
  else
    let ds := diffs closes
    let ag := ((ds.drop period).map gainOf).foldl (wilderStep period)
      (((ds.take period).map gainOf).sum / (period : ℚ))
    let al := ((ds.drop period).map lossOf).foldl (wilderStep period)
      (((ds.take period).map lossOf).sum / (period : ℚ))
    if al = 0 then (if ag = 0 then some 50 else some 100)
    else some (100 - 100 / (1 + ag / al))

/-- What `gui_modern`'s RSI pipeline actually computes, written over the
true deltas: because pandas materialises the NaN first delta as a zero
gain/loss entry, the seed at index `period - 1` is the sum of the gains of
only the first `period - 1` true deltas, still divided by `period` (one
phantom zero), and the Wilder recurrence then consumes the remaining
deltas starting one index earlier than Wilder's definition would. -/
def padWilderRSI (closes : List ℚ) (period : Nat) : Option ℚ :=
  if closes.length < period then none
  else
    let ds := diffs closes
    let ag := ((ds.drop (period - 1)).map gainOf).foldl (wilderStep period)
      (((ds.take (period - 1)).map gainOf).sum / (period : ℚ))
    let al := ((ds.drop (period - 1)).map lossOf).foldl (wilderStep period)
      (((ds.take (period - 1)).map lossOf).sum / (period : ℚ))
    rsiOfAvg ag al

/-- Cutler-style RSI over the true deltas: simple means of the gains and
losses of the last `w` deltas.  This is what `main_enhanced.rsi_worker`'s
plain rolling mean amounts to once the series holds at least `w + 2`
closes (so that the materialised zero entry falls outside the window). -/
def cutlerRSI (closes : List ℚ) (w : Nat) : Option ℚ :=
  let ds := diffs closes
  if ds.length < w then none
  else
    rsiOfAvg (((ds.drop (ds.length - w)).map gainOf).sum / (w : ℚ))
      (((ds.drop (ds.length - w)).map lossOf).sum / (w : ℚ))

/-- A Heikin-Ashi candle as the monitors consume it. -/
structure HACandle where
  ts : Nat
  haOpen : ℚ
  haHigh : ℚ
  haLow : ℚ
  haClose : ℚ
deriving Repr, DecidableEq

/-- Tail of the Heikin-Ashi recurrence, carrying the previous bar's
`ha_open` and `ha_close`. -/
def haRec (po pc : ℚ) : List Candle → List HACandle
  | [] => []
  | c :: cs =>
    let o := (po + pc) / 2
    let cl := (c.opn + c.high + c.low + c.close) / 4
    ⟨c.ts, o, max c.high (max o cl), min c.low (min o cl), cl⟩ :: haRec o cl cs

/-- Modelled from the spec: `TradingStrategies.heikin_ashi` is called by
both monitor variants but its definition (Core_Modules/strategies.py) is
not present under src/; §3 of the spec gives the recurrence embedded
here - `ha_close[i] = avg(open,high,low,close)[i]`,
`ha_open[i] = avg(ha_open[i-1], ha_close[i-1])` seeded with
`avg(open[0], close[0])`, `ha_high[i] = max(high[i], ha_open[i],
ha_close[i])`, `ha_low[i] = min(low[i], ha_open[i], ha_close[i])`, one
output candle per input candle in the same order. -/
def heikin_ashi : List Candle → List HACandle
  | [] => []
  | c :: cs =>
    let o := (c.opn + c.close) / 2
    let cl := (c.opn + c.high + c.low + c.close) / 4
    ⟨c.ts, o, max c.high (max o cl), min c.low (min o cl), cl⟩ :: haRec o cl cs

/-- The close series a monitor computes on: the raw closes, or the
Heikin-Ashi closes when that candle type is selected. -/
def closeSeries (ha : Bool) (cs : List Candle) : List ℚ :=
  if ha then (heikin_ashi cs).map HACandle.haClose else cs.map Candle.close

/-- The high series a Donchian monitor computes on. -/
def highSeries (ha : Bool) (cs : List Candle) : List ℚ :=
  if ha then (heikin_ashi cs).map HACandle.haHigh else cs.map Candle.high

/-- The low series a Donchian monitor computes on. -/
def lowSeries (ha : Bool) (cs : List Candle) : List ℚ :=
  if ha then (heikin_ashi cs).map HACandle.haLow else cs.map Candle.low

/-- Timestamp of the candle at index `i` (0 when out of range; every use
below is in range). -/
def tsAt (cs : List Candle) (i : Nat) : Nat :=
  match cs[i]? with
  | some c => c.ts
  | none => 0

/-- `value > threshold` under Python float semantics: false when the value
is NaN (`none`). -/
def optGt (v : Option ℚ) (t : ℚ) : Bool :=
  match v with
  | some x => t < x
  | none => false

/-- `value < threshold` under Python float semantics: false when the value
is NaN (`none`). -/
def optLt (v : Option ℚ) (t : ℚ) : Bool :=
  match v with
  | some x => x < t
  | none => false

/-- `price >= band` where the band may be NaN (`none`, comparison false). -/
def geBand (p : ℚ) (b : Option ℚ) : Bool :=
  match b with
  | some x => x ≤ p
  | none => false

/-- `price <= band` where the band may be NaN (`none`, comparison false). -/
def leBand (p : ℚ) (b : Option ℚ) : Bool :=
  match b with
  | some x => p ≤ x
  | none => false

/-- Value at the last index of `xs.rolling(window=w).max()`: the maximum
of the final `w` entries, NaN (`none`) when fewer than `w` exist. -/
def rollMaxLast (w : Nat) (xs : List ℚ) : Option ℚ :=
  if xs.length < w ∨ w = 0 then none else (xs.drop (xs.length - w)).max?

/-- Value at the last index of `xs.rolling(window=w).min()`. -/
def rollMinLast (w : Nat) (xs : List ℚ) : Option ℚ :=
  if xs.length < w ∨ w = 0 then none else (xs.drop (xs.length - w)).min?

/-- The kinds of alert the two monitors emit. -/
inductive AlertKind where
  | rsiLookbackOverbought
  | rsiLookbackOversold
  | rsiOverbought
  | rsiOversold
  | donchLookbackBullish
  | donchLookbackBearish
  | donchPrevBullish
  | donchPrevBearish
  | donchBullishBreakout
  | donchBearishBreakdown
deriving Repr, DecidableEq

/-- An emitted alert: its kind and the candle timestamp it is keyed to. -/
structure Alert where
  kind : AlertKind
  ts : Nat
deriving Repr, DecidableEq

/-- Outcome class of one polling cycle, mirroring the early returns of
`do_rsi_analysis` / `do_donchian_analysis` and the status they report;
`ok` carries the indicator value of a completed cycle. -/
inductive CycleResult where
  | tokenNotFound
  | noData
  | notEnoughCandles
  | ok (value : Option ℚ)
deriving Repr, DecidableEq

/-- Per-monitor mutable state: the alerted-candles dedup store (the
source's `set()` of timestamp strings, modelled membership-faithfully as
a list) and the `first_run` flag. -/
structure MonitorState where
  alerted : List Nat
  firstRun : Bool
deriving Repr, DecidableEq

/-- Result of one full polling cycle. -/
structure CycleOut where
  result : CycleResult
  alerts : List Alert
  state : MonitorState
deriving Repr, DecidableEq

/-- `set.add(ts)`: adding an element already present leaves the store
unchanged. -/
def addTs (S : List Nat) (ts : Nat) : List Nat :=
  if ts ∈ S then S else ts :: S

/-- `launch_rsi_monitor` (gui_modern line 1303) resets the dedup store -
`self.rsi_alerted_candles = set()` - discarding whatever a previous
monitor instance had accumulated, and a fresh instance starts with
`first_run = True`. -/
def launch_rsi_monitor (_prev : MonitorState) : MonitorState :=
  ⟨[], true⟩

/-- `start_rsi_monitor` (main_enhanced lines 763-768) likewise resets the
dedup store - `self.rsi_alerted_candles = set()` - before spawning the
worker thread, so a fresh monitor instance of the enhanced CLI variant
also begins with an empty store whatever a previous instance had
alerted. -/
def start_rsi_monitor (_prev : List Nat) : List Nat := []

/-- The current-candle RSI alert check of `do_rsi_analysis` (gui_modern
lines 1489-1516): overbought when RSI > 70 and the candle timestamp is
not in the dedup store, else oversold when RSI < 30 under the same dedup
condition, else nothing; an emitted alert adds the timestamp. -/
def rsi_alert_check (S : List Nat) (ts : Nat) (r : Option ℚ) :
    List Alert × List Nat :=
  if optGt r 70 ∧ ts ∉ S then ([⟨.rsiOverbought, ts⟩], addTs S ts)
  else if optLt r 30 ∧ ts ∉ S then ([⟨.rsiOversold, ts⟩], addTs S ts)
  else ([], S)

/-- The close series the RSI lookback builds for the candle prefix ending
at index `idx` (gui_modern lines 1434-1439): when Heikin-Ashi is
configured the transform is re-applied to the prefix `df.iloc[:idx+1]`,
otherwise the raw closes are truncated. -/
def lookbackCloses (ha : Bool) (cs : List Candle) (idx : Nat) : List ℚ :=
  if ha then (heikin_ashi (cs.take (idx + 1))).map HACandle.haClose
  else (cs.map Candle.close).take (idx + 1)

/-- The RSI the lookback computes as of index `idx`: the whole live
pipeline re-run on the prefix (gui_modern lines 1441-1454 duplicate
lines 1393-1402 verbatim on the truncated series). -/
def rsiLookbackAt (ha : Bool) (cs : List Candle) (idx : Nat) : Option ℚ :=
  rsiGuiModern (lookbackCloses ha cs idx) 14

/-- One iteration of the RSI lookback loop of `do_rsi_analysis`
(gui_modern lines 1424-1473) at dataframe index `idx`: skip if the
timestamp is already in the dedup store; otherwise, provided the prefix
holds at least `period + 1` closes, compute the prefix RSI and alert -
adding the timestamp - only when the value crosses a threshold. -/
def rsiLookbackStep (ha : Bool) (cs : List Candle)
    (acc : List Alert × List Nat) (idx : Nat) : List Alert × List Nat :=
  let ts := tsAt cs idx
  if ts ∈ acc.2 then acc
  else if 14 + 1 ≤ (lookbackCloses ha cs idx).length then
    let r := rsiLookbackAt ha cs idx
    if optGt r 70 then (acc.1 ++ [⟨.rsiLookbackOverbought, ts⟩], addTs acc.2 ts)
    else if optLt r 30 then (acc.1 ++ [⟨.rsiLookbackOversold, ts⟩], addTs acc.2 ts)
    else acc
  else acc

/-- The RSI lookback reconciliation of `do_rsi_analysis` (gui_modern
lines 1420-1475): on the first run, walk the `min(10, len - 1)` candles
preceding the current one from oldest to newest. -/
def rsiLookback (ha : Bool) (cs : List Candle) (S : List Nat) :
    List Alert × List Nat :=
  let n := cs.length
  let lb := min 10 (n - 1)
  (List.range' (n - 1 - lb) lb).foldl (rsiLookbackStep ha cs) ([], S)

/-- One polling cycle of the gui_modern RSI monitor, `do_rsi_analysis`
(gui_modern lines 1348-1521): resolve-token failure, empty-data and
fewer-than-100-candles early exits; otherwise compute the RSI of the
(possibly Heikin-Ashi) close series, run the lookback on the first run
only, then the deduplicated current-candle alert check. -/
def do_rsi_analysis (token : Option Nat) (ha : Bool) (cs : List Candle)
    (st : MonitorState) : CycleOut :=
  match token with
  | none => ⟨.tokenNotFound, [], st⟩
  | some _ =>
    if cs.isEmpty then ⟨.noData, [], st⟩
    else if cs.length < 100 then ⟨.notEnoughCandles, [], st⟩
    else
      let current_rsi := rsiGuiModern (closeSeries ha cs) 14
      let lb := if st.firstRun then rsiLookback ha cs st.alerted
        else ([], st.alerted)
      let ts := tsAt cs (cs.length - 1)
      let cur := rsi_alert_check lb.2 ts current_rsi
      ⟨.ok current_rsi, lb.1 ++ cur.1, ⟨cur.2, false⟩⟩

/-- One iteration of the `while not self.rsi_stop_event.is_set()` body of
`main_enhanced.rsi_worker` (lines 813-871): fewer than 100 candles means
sleep-and-retry with no alert; otherwise compute the rolling-mean RSI and
alert on the current candle unless its timestamp is already in the dedup
store. -/
def rsi_cycle_enhanced (ha : Bool) (cs : List Candle) (S : List Nat) :
    CycleResult × List Alert × List Nat :=
  if cs.length < 100 then (.notEnoughCandles, [], S)
  else
    let current_rsi := rsiEnhanced (closeSeries ha cs)
    let ts := tsAt cs (cs.length - 1)
    if ts ∉ S then
      if optGt current_rsi 70 then
        (.ok current_rsi, [⟨.rsiOverbought, ts⟩], addTs S ts)
      else if optLt current_rsi 30 then
        (.ok current_rsi, [⟨.rsiOversold, ts⟩], addTs S ts)
      else (.ok current_rsi, [], S)
    else (.ok current_rsi, [], S)

/-- One iteration of the Donchian lookback loop of `do_donchian_analysis`
(gui_modern lines 1729-1769) at dataframe index `idx`: skip if the
timestamp is already in the dedup store; otherwise compare the close at
`idx` with the 20-period high (resp. 10-period low) of the series prefix
ending at `idx` excluding the candle at `idx` itself, alerting - and
adding the timestamp - on a crossing; the bullish and bearish checks are
two independent ifs, not an if/elif. -/
def donchianLookbackStep (ha : Bool) (cs : List Candle)
    (acc : List Alert × List Nat) (idx : Nat) : List Alert × List Nat :=
  let ts := tsAt cs idx
  if ts ∈ acc.2 then acc
  else
    let lbHigh := (highSeries ha cs).take (idx + 1)
    let lbLow := (lowSeries ha cs).take (idx + 1)
    let lbClose := ((closeSeries ha cs)[idx]?).getD 0
    let acc1 :=
      if 20 ≤ lbHigh.length ∧ geBand lbClose (rollMaxLast 20 lbHigh.dropLast)
      then (acc.1 ++ [⟨.donchLookbackBullish, ts⟩], addTs acc.2 ts)
      else acc
    if 10 ≤ lbLow.length ∧ leBand lbClose (rollMinLast 10 lbLow.dropLast)
    then (acc1.1 ++ [⟨.donchLookbackBearish, ts⟩], addTs acc1.2 ts)
    else acc1

/-- The Donchian lookback reconciliation of `do_donchian_analysis`
(gui_modern lines 1725-1771). -/
def donchianLookback (ha : Bool) (cs : List Candle) (S : List Nat) :
    List Alert × List Nat :=
  let n := cs.length
  let lb := min 10 (n - 1)
  (List.range' (n - 1 - lb) lb).foldl (donchianLookbackStep ha cs) ([], S)

/-- One polling cycle of the gui_modern Donchian monitor,
`do_donchian_analysis` (gui_modern lines 1636-1858): early exits for
token/no-data/fewer-than-20 candles; live bands over the full (possibly
Heikin-Ashi) series including the still-forming candle; the prior
candle's close is checked against bands computed with the current candle
excluded (`high.iloc[:-1]`, `low.iloc[:-1]`), deduplicated on the prior
candle's timestamp; the current price is checked against the live bands,
deduplicated on the current candle's timestamp. -/
def do_donchian_analysis (token : Option Nat) (ha : Bool)
    (cs : List Candle) (st : MonitorState) : CycleOut :=
  match token with
  | none => ⟨.tokenNotFound, [], st⟩
  | some _ =>
    if cs.isEmpty then ⟨.noData, [], st⟩
    else if cs.length < 20 then ⟨.notEnoughCandles, [], st⟩
    else
      let high := highSeries ha cs
      let low := lowSeries ha cs
      let close := closeSeries ha cs
      let upper_band := rollMaxLast 20 high
      let lower_band := rollMinLast 10 low
      let prev_upper_band := rollMaxLast 20 high.dropLast
      let prev_lower_band := rollMinLast 10 low.dropLast
      let current_price := (close[close.length - 1]?).getD 0
      let lb := if st.firstRun then donchianLookback ha cs st.alerted
        else ([], st.alerted)
      let n := cs.length
      let prevStep :=
        if 1 < n then
          let prev_close := (close[close.length - 2]?).getD 0
          let prev_ts := tsAt cs (n - 2)
          if geBand prev_close prev_upper_band ∧ prev_ts ∉ lb.2 then
            (lb.1 ++ [⟨.donchPrevBullish, prev_ts⟩], addTs lb.2 prev_ts)
          else if leBand prev_close prev_lower_band ∧ prev_ts ∉ lb.2 then
            (lb.1 ++ [⟨.donchPrevBearish, prev_ts⟩], addTs lb.2 prev_ts)
          else lb
        else lb
      let cur_ts := tsAt cs (n - 1)
      let curStep :=
        if geBand current_price upper_band ∧ cur_ts ∉ prevStep.2 then
          (prevStep.1 ++ [⟨.donchBullishBreakout, cur_ts⟩], addTs prevStep.2 cur_ts)
        else if leBand current_price lower_band ∧ cur_ts ∉ prevStep.2 then
          (prevStep.1 ++ [⟨.donchBearishBreakdown, cur_ts⟩], addTs prevStep.2 cur_ts)
        else prevStep
      ⟨.ok (some current_price), curStep.1, ⟨curStep.2, false⟩⟩

/-- One iteration of the `while not self.donchian_stop_event.is_set()`
body of `main_enhanced.donchian_worker` (lines 1026-1103): fewer than 20
candles means sleep-and-retry; otherwise the prior candle's close is
compared against the bands computed over the full series - including the
still-forming current candle - and any alert is deduplicated on the
current candle's timestamp. -/
def donchian_cycle_enhanced (ha : Bool) (cs : List Candle) (S : List Nat) :
    CycleResult × List Alert × List Nat :=
  if cs.length < 20 then (.notEnoughCandles, [], S)
  else
    let high := highSeries ha cs
    let low := lowSeries ha cs
    let close := closeSeries ha cs
    let upper_band := rollMaxLast 20 high
    let lower_band := rollMinLast 10 low
    let current_price := (close[close.length - 1]?).getD 0
    let prev_close := (close[close.length - 2]?).getD 0
    let ts := tsAt cs (cs.length - 1)
    if ts ∉ S then
      if geBand prev_close upper_band then
        (.ok (some current_price), [⟨.donchBullishBreakout, ts⟩], addTs S ts)
      else if leBand prev_close lower_band then
        (.ok (some current_price), [⟨.donchBearishBreakdown, ts⟩], addTs S ts)
      else (.ok (some current_price), [], S)
    else (.ok (some current_price), [], S)

/-- Control-flow abstraction of `gui_modern.rsi_worker` (lines 1312-1552):
the `try` block wraps the immediate analysis and the whole scheduling
loop, and the `except`/`finally` pair reports the error and exits the
thread.  Given a script of cycle behaviours (`true` = that polling cycle
raises), this counts how many cycles the worker attempts before its
thread exits or the script is exhausted (an external stop): the first
raising cycle is attempted, caught once and reported, but no later cycle
runs. -/
def rsi_worker_cycles_guiModern : List Bool → Nat
  | [] => 0
  | b :: rest => 1 + (if b then 0 else rsi_worker_cycles_guiModern rest)

/-- Control-flow abstraction of `main_enhanced.rsi_worker` (lines
807-886): the `try`/`except` sits inside the `while` loop, so a raising
cycle is caught, logged, slept over, and the loop continues; every
scripted cycle is attempted. -/
def rsi_worker_cycles_enhanced : List Bool → Nat
  | [] => 0
  | _ :: rest => 1 + rsi_worker_cycles_enhanced rest

/-- A catalogue row as `_resolve_instrument_token` consumes it. -/
structure Instrument where
  tradingsymbol : String
  instrument_token : Nat
deriving Repr, DecidableEq

/-- The exchange / tradingsymbol determination of
`_resolve_instrument_token` (gui_modern lines 1938-1952) on the already
trimmed and upper-cased symbol: an `NSE:` prefix selects NSE and the part
after the colon; otherwise the symbol itself is the tradingsymbol and the
exchange is MCX for `NATGASMINI`-containing symbols, NCDEX for
agri-commodity substrings, MCX by default.  Python's substring operator
`in` is modelled through `splitOn`. -/
def symbolExchange (sym : String) : String × String :=
  if sym.startsWith "NSE:" then ("NSE", ((sym.splitOn ":")[1]?).getD "")
  else if 1 < (sym.splitOn "NATGASMINI").length then ("MCX", sym)
  else if 1 < (sym.splitOn "WHEAT").length ∨ 1 < (sym.splitOn "COTTON").length
      ∨ 1 < (sym.splitOn "SOY").length ∨ 1 < (sym.splitOn "SUGAR").length
      ∨ 1 < (sym.splitOn "JEERA").length then ("NCDEX", sym)
  else ("MCX", sym)

/-- `_resolve_instrument_token` (gui_modern lines 1932-1977): trim and
upper-case the symbol, determine exchange and tradingsymbol, obtain the
(cached or freshly fetched) catalogue for that exchange, and return the
token of the first case-insensitively matching row.  `catalogue` maps an
exchange to its instrument list; `none` models the `except` path - any
exception while (re)fetching the catalogue - which the function turns
into `None`, exactly like an unmatched symbol. -/
def resolve_instrument_token (catalogue : String → Option (List Instrument))
    (symbol : String) : Option Nat :=
  let ex := symbolExchange symbol.trim.toUpper
  (catalogue ex.1).bind fun insts =>
    (insts.find? fun i => i.tradingsymbol.toUpper == ex.2).map
      fun i => i.instrument_token

/-- Concrete 16-close series (thirteen unit rises, one unit fall, one
unit rise) on which the monitors' RSI values differ from Wilder RSI. -/
def closesC1 : List ℚ := [0, 1, 2, 3, 4, 5, 6, 7, 8, 9, 10, 11, 12, 13, 12, 13]

/-- The spec's end-to-end scenario A series: 20 hourly candles whose
closes rise monotonically for 15 bars (1..15) and then fall for 5
(14..10). -/
def scenarioA : List Candle :=
  (List.range 20).map fun (i : Nat) =>
    let c : ℚ := if i < 15 then (i : ℚ) + 1 else 29 - (i : ℚ)
    Candle.mk i c c c c

/-- 50 candles with strictly rising integer closes: enough for the
spec's `period + 1` requirement, not enough for the source's 100-candle
gate. -/
def linear50 : List Candle :=
  (List.range 50).map fun i => ⟨i, (i : ℚ), (i : ℚ), (i : ℚ), (i : ℚ)⟩

/-- 100 candles with constant closes: passes the 100-candle gate and
makes every RSI value 0/0, hence NaN. -/
def const100 : List Candle :=
  (List.range 100).map fun i => ⟨i, 5, 5, 5, 5⟩

/-- 21 candles whose still-forming last candle spikes to a high of 200
while the 20 completed candles have high 10; the prior candle closed at
50, between the exclusive band (10) and the inclusive band (200). -/
def cs21 : List Candle :=
  (List.range 21).map fun (i : Nat) =>
    ⟨i, 5, if i = 20 then 200 else 10, 1,
      if i = 19 then 50 else if i = 20 then 15 else 5⟩

/-- 20 constant closes: every delta is zero, so both smoothed averages
are exactly zero. -/
def constCloses : List ℚ := List.replicate 20 5

/-- 16 strictly rising closes: every loss is zero while the smoothed
average gain is positive. -/
def risingCloses : List ℚ := [0, 1, 2, 3, 4, 5, 6, 7, 8, 9, 10, 11, 12, 13, 14, 15]

/-- Length of the delta list of a nonempty close series. -/
theorem diffs_length (c : ℚ) (cs : List ℚ) :
    (diffs (c :: cs)).length = cs.length := by
  simp [diffs, List.length_zipWith]

/-- Taking 14 of the zero-padded gain list keeps the pad and 13 true
entries. -/
theorem take14_cons_zero (l : List ℚ) : (0 :: l).take 14 = 0 :: l.take 13 := rfl

/-- Dropping 14 of the zero-padded gain list drops the pad and 13 true
entries. -/
theorem drop14_cons_zero (l : List ℚ) : (0 :: l).drop 14 = l.drop 13 := rfl

/-- Membership in the dedup store after a `set.add`. -/
theorem mem_addTs (S : List Nat) (t x : Nat) : x ∈ addTs S t ↔ x = t ∨ x ∈ S := by
  by_cases h : t ∈ S
  · simp [addTs, h]
    intro he
    rw [he]
    exact h
  · simp [addTs, h]

/-- Each lookback iteration either leaves the accumulator unchanged or
appends exactly one alert and marks exactly that alert's timestamp. -/
theorem rsiLookbackStep_cases (ha : Bool) (cs : List Candle)
    (acc : List Alert × List Nat) (i : Nat) :
    rsiLookbackStep ha cs acc i = acc ∨
    ∃ k, rsiLookbackStep ha cs acc i =
      (acc.1 ++ [⟨k, tsAt cs i⟩], addTs acc.2 (tsAt cs i)) := by
  by_cases h1 : tsAt cs i ∈ acc.2
  · left; simp [rsiLookbackStep, h1]
  · by_cases h2 : 14 + 1 ≤ (lookbackCloses ha cs i).length
    · by_cases h3 : optGt (rsiLookbackAt ha cs i) 70
      · right
        exact ⟨.rsiLookbackOverbought, by simp [rsiLookbackStep, h1, h2, h3]⟩
      · by_cases h4 : optLt (rsiLookbackAt ha cs i) 30
        · right
          exact ⟨.rsiLookbackOversold, by simp [rsiLookbackStep, h1, h2, h3, h4]⟩
        · left; simp [rsiLookbackStep, h1, h2, h3, h4]
    · left; simp [rsiLookbackStep, h1, h2]

/-- Invariant of the lookback fold: a timestamp is in the dedup store
exactly when it was there initially or an emitted alert carries it. -/
theorem rsiLookback_fold_inv (ha : Bool) (cs : List Candle) (S : List Nat)
    (idxs : List Nat) :
    ∀ acc : List Alert × List Nat,
      (∀ ts, ts ∈ acc.2 ↔ ts ∈ S ∨ ∃ a ∈ acc.1, a.ts = ts) →
      ∀ ts, ts ∈ (idxs.foldl (rsiLookbackStep ha cs) acc).2 ↔
        ts ∈ S ∨ ∃ a ∈ (idxs.foldl (rsiLookbackStep ha cs) acc).1, a.ts = ts := by
  induction idxs with
  | nil => intro acc h ts; simpa using h ts
  | cons i idxs ih =>
    intro acc h ts
    simp only [List.foldl_cons]
    apply ih
    intro t
    rcases rsiLookbackStep_cases ha cs acc i with hc | ⟨k, hc⟩
    · rw [hc]; exact h t
    · rw [hc]
      simp only [mem_addTs, List.mem_append, List.mem_singleton]
      constructor
      · rintro (rfl | hmem)
        · exact Or.inr ⟨⟨k, tsAt cs i⟩, Or.inr rfl, rfl⟩
        · rcases (h t).1 hmem with hS | ⟨a, ha1, ha2⟩
          · exact Or.inl hS
          · exact Or.inr ⟨a, Or.inl ha1, ha2⟩
      · rintro (hS | ⟨a, (ha1 | rfl), ha2⟩)
        · exact Or.inr ((h t).2 (Or.inl hS))
        · exact Or.inr ((h t).2 (Or.inr ⟨a, ha1, ha2⟩))
        · exact Or.inl ha2.symm

/-- Re-adding an already-added timestamp is a no-op. -/
theorem addTs_addTs (S : List Nat) (t : Nat) : addTs (addTs S t) t = addTs S t := by
  rw [addTs, if_pos ((mem_addTs S t t).2 (Or.inl rfl))]

/-- Marking one timestamp while appending alerts that all carry it
preserves the store/alert correspondence. -/
theorem addTs_append_inv (acc : List Alert × List Nat) (S : List Nat) (ts : Nat)
    (ks : List Alert) (hks : ∀ a ∈ ks, a.ts = ts) (hne : ks ≠ [])
    (h : ∀ t, t ∈ acc.2 ↔ t ∈ S ∨ ∃ a ∈ acc.1, a.ts = t) (t : Nat) :
    t ∈ addTs acc.2 ts ↔ t ∈ S ∨ ∃ a ∈ acc.1 ++ ks, a.ts = t := by
  rw [mem_addTs]
  simp only [List.mem_append]
  constructor
  · rintro (rfl | hmem)
    · obtain ⟨a, hak⟩ := List.exists_mem_of_ne_nil ks hne
      exact Or.inr ⟨a, Or.inr hak, hks a hak⟩
    · rcases (h t).1 hmem with hS | ⟨a, ha1, ha2⟩
      · exact Or.inl hS
      · exact Or.inr ⟨a, Or.inl ha1, ha2⟩
  · rintro (hS | ⟨a, (ha1 | ha1), ha2⟩)
    · exact Or.inr ((h t).2 (Or.inl hS))
    · exact Or.inr ((h t).2 (Or.inr ⟨a, ha1, ha2⟩))
    · exact Or.inl (by rw [← ha2, hks a ha1])

/-- Each Donchian lookback iteration - which can raise zero, one or two
alerts for a candle - preserves the store/alert correspondence: it marks
exactly the timestamps of alerts it emits. -/
theorem donchianLookbackStep_inv (ha : Bool) (cs : List Candle) (S : List Nat)
    (acc : List Alert × List Nat) (i : Nat)
    (h : ∀ t, t ∈ acc.2 ↔ t ∈ S ∨ ∃ a ∈ acc.1, a.ts = t) :
    ∀ t, t ∈ (donchianLookbackStep ha cs acc i).2 ↔
      t ∈ S ∨ ∃ a ∈ (donchianLookbackStep ha cs acc i).1, a.ts = t := by
  intro t
  simp only [donchianLookbackStep]
  split_ifs with h1 h2 h3
  · exact h t
  · rw [addTs_addTs, List.append_assoc]
    exact addTs_append_inv acc S (tsAt cs i)
      [⟨.donchLookbackBullish, tsAt cs i⟩, ⟨.donchLookbackBearish, tsAt cs i⟩]
      (by simp) (by simp) h t
  · exact addTs_append_inv acc S (tsAt cs i) [⟨.donchLookbackBearish, tsAt cs i⟩]
      (by simp) (by simp) h t
  · exact addTs_append_inv acc S (tsAt cs i) [⟨.donchLookbackBullish, tsAt cs i⟩]
      (by simp) (by simp) h t
  · exact h t

/-- Invariant of the Donchian lookback fold, analogous to
`rsiLookback_fold_inv`. -/
theorem donchianLookback_fold_inv (ha : Bool) (cs : List Candle) (S : List Nat)
    (idxs : List Nat) :
    ∀ acc : List Alert × List Nat,
      (∀ t, t ∈ acc.2 ↔ t ∈ S ∨ ∃ a ∈ acc.1, a.ts = t) →
      ∀ t, t ∈ (idxs.foldl (donchianLookbackStep ha cs) acc).2 ↔
        t ∈ S ∨ ∃ a ∈ (idxs.foldl (donchianLookbackStep ha cs) acc).1, a.ts = t := by
  induction idxs with
  | nil => intro acc h t; simpa using h t
  | cons i idxs ih =>
    intro acc h t
    simp only [List.foldl_cons]
    exact ih _ (donchianLookbackStep_inv ha cs S acc i h) t

/-- A prefix of the Heikin-Ashi recurrence tail is the recurrence tail of
the prefix. -/
theorem haRec_take (po pc : ℚ) (cs : List Candle) (k : Nat) :
    haRec po pc (cs.take k) = (haRec po pc cs).take k := by
  induction cs generalizing po pc k with
  | nil => simp [haRec]
  | cons c cs ih =>
    cases k with
    | zero => simp [haRec]
    | succ k => simp [haRec, List.take_succ_cons, ih]

/-- The Heikin-Ashi transform commutes with taking a prefix: its forward
recurrence never looks at later candles. -/
theorem heikin_ashi_take (cs : List Candle) (k : Nat) :
    heikin_ashi (cs.take k) = (heikin_ashi cs).take k := by
  cases cs with
  | nil => simp [heikin_ashi]
  | cons c cs =>
    cases k with
    | zero => simp [heikin_ashi]
    | succ k => simp [heikin_ashi, List.take_succ_cons, haRec_take]

/-- Claim C1 (counterexample): on the concrete series `closesC1` neither
monitor variant's RSI equals the Wilder-definition RSI of the spec - the
gui_modern pipeline seeds its averages one index early with a phantom
zero in place of the first delta, and the main_enhanced pipeline uses a
plain rolling mean with no Wilder recurrence at all. -/
theorem c1_rsi_not_wilder_counterexample :
    rsiGuiModern closesC1 14 ≠ wilderRSI closesC1 14 ∧
    rsiEnhanced closesC1 ≠ wilderRSI closesC1 14 := by
  with_unfolding_all decide

/-- Claim C2 (counterexample): feeding the spec's scenario-A series (20
candles, closes rising for 15 bars then falling for 5) to the RSI
monitor's polling cycle produces no alert at all - not one overbought
flag - because the cycle refuses to evaluate RSI with fewer than 100
candles. -/
theorem c2_scenarioA_counterexample :
    (do_rsi_analysis (some 1) false scenarioA ⟨[], true⟩).alerts = [] ∧
    (do_rsi_analysis (some 1) false scenarioA ⟨[], true⟩).result =
      .notEnoughCandles := by
  with_unfolding_all decide

/-- Claim C2 (amended): on the scenario-A series both monitor variants
report the not-enough-candles condition, emit no alert, and leave the
monitor state untouched. -/
theorem c2_scenarioA_amended :
    do_rsi_analysis (some 1) false scenarioA ⟨[], true⟩ =
      ⟨.notEnoughCandles, [], ⟨[], true⟩⟩ ∧
    rsi_cycle_enhanced false scenarioA [] = (.notEnoughCandles, [], []) := by
  with_unfolding_all decide

/-- Claim C3 (counterexample): on `cs21` the prior candle's close (50)
clears the upper band computed with the still-forming candle excluded, so
the gui_modern cycle raises the prior-candle bullish alert; the
main_enhanced cycle compares the same prior close against the band
including the current candle's 200 high and raises nothing - its
breakout check does not use the exclusion band the claim asserts for
every variant. -/
theorem c3_donchian_band_counterexample :
    geBand (((closeSeries false cs21)[19]?).getD 0)
      (rollMaxLast 20 ((highSeries false cs21).dropLast)) = true ∧
    (do_donchian_analysis (some 1) false cs21 ⟨[], false⟩).alerts =
      [⟨.donchPrevBullish, 19⟩] ∧
    (donchian_cycle_enhanced false cs21 []).2.1 = [] := by
  with_unfolding_all decide

/-- Claim C4 (counterexample): `linear50` has 50 candles - far more than
the claimed `period + 1 = 15` threshold - and its RSI is defined (100,
all gains), yet the polling cycle reports not-enough-candles and
evaluates nothing: the source gates on 100 candles, not on 15. -/
theorem c4_min_candles_counterexample :
    (do_rsi_analysis (some 1) false linear50 ⟨[], false⟩).result =
      .notEnoughCandles ∧
    (do_rsi_analysis (some 1) false linear50 ⟨[], false⟩).alerts = [] ∧
    rsiGuiModern (closeSeries false linear50) 14 = some 100 := by
  with_unfolding_all decide

/-- Claim C5 (counterexample): a first polling cycle over 100
constant-close candles walks the 10 lookback candles (timestamps 89..98),
none of which crosses a threshold, and afterwards the dedup store is
still empty - in particular the scanned timestamp 98 was not marked,
although the claim asserts every scanned candle's timestamp is marked
regardless of threshold crossing. -/
theorem c5_lookback_marking_counterexample :
    (do_rsi_analysis (some 1) false const100 ⟨[], true⟩).state.alerted = [] ∧
    98 ∉ (do_rsi_analysis (some 1) false const100 ⟨[], true⟩).state.alerted := by
  with_unfolding_all decide

/-- Claim C6 (counterexample): in the gui_modern worker the `try` wraps
the whole scheduling loop, so a script whose first polling cycle raises
and whose second would succeed attempts only one cycle - the exception
ends the monitor thread instead of being contained - while the
main_enhanced worker attempts both. -/
theorem c6_exception_containment_counterexample :
    rsi_worker_cycles_guiModern [true, false] = 1 ∧
    rsi_worker_cycles_enhanced [true, false] = 2 := by decide

/-- Claim C9 (counterexample): on 20 constant closes both smoothed
averages are exactly zero and both monitor variants yield an undefined
(NaN) RSI, not the claimed value 50. -/
theorem c9_zero_division_counterexample :
    rsiGuiModern constCloses 14 = none ∧
    rsiGuiModern constCloses 14 ≠ some 50 ∧
    rsiEnhanced constCloses = none ∧
    rsiEnhanced constCloses ≠ some 50 := by
  with_unfolding_all decide

/-- Claim C7 (confirmed): within one monitor instance, an alert attempt
for a candle timestamp already present in the alerted-candles store is
suppressed - no alert is emitted and the store is returned unchanged -
in the gui_modern alert check and in the main_enhanced polling cycle
alike; and a freshly started monitor instance begins with an empty
store in both variants, no matter what any previous instance had
alerted. -/
theorem c7_dedup_suppression_and_fresh_start :
    (∀ (S : List Nat) (ts : Nat) (r : Option ℚ), ts ∈ S →
      rsi_alert_check S ts r = ([], S)) ∧
    (∀ (ha : Bool) (cs : List Candle) (S : List Nat),
      tsAt cs (cs.length - 1) ∈ S →
      (rsi_cycle_enhanced ha cs S).2 = ([], S)) ∧
    (∀ prev : MonitorState, (launch_rsi_monitor prev).alerted = []) ∧
    (∀ prev : List Nat, start_rsi_monitor prev = []) := by
  refine ⟨fun S ts r h => ?_, fun ha cs S hmem => ?_,
    fun prev => rfl, fun prev => rfl⟩
  · simp [rsi_alert_check, h]
  · by_cases h1 : cs.length < 100
    · simp [rsi_cycle_enhanced, h1]
    · simp [rsi_cycle_enhanced, h1, hmem]

/-- Witness for C7: the store containing timestamp 5 suppresses a fresh
overbought reading (RSI 80) for that timestamp in the gui_modern check,
and the store containing timestamp 99 makes the enhanced cycle on 100
candles emit nothing and leave the store unchanged. -/
theorem c7_dedup_suppression_witness :
    rsi_alert_check [5] 5 (some 80) = ([], [5]) ∧
    (rsi_cycle_enhanced false const100 [99]).2 = ([], [99]) :=
  ⟨c7_dedup_suppression_and_fresh_start.1 [5] 5 (some 80) (by decide),
   c7_dedup_suppression_and_fresh_start.2.1 false const100 [99]
     (by with_unfolding_all decide)⟩

/-- Claim C1 (amended): the gui_modern monitor's RSI satisfies the Wilder
recurrence `avgGain[i] = (avgGain[i-1]*(period-1) + gain[i]) / period`
for the later deltas, but its seed simple-averages only the first
`period - 1` true deltas together with a phantom zero (the materialised
NaN first delta) and sits one index earlier than Wilder's definition -
exactly `padWilderRSI`; the main_enhanced monitor's RSI is Cutler's
rolling-mean RSI (simple means of the gains/losses of the last `period`
deltas) with no Wilder recurrence at all, for every series long enough
that the phantom entry leaves the window. -/
theorem c1_rsi_formula_amended :
    (∀ closes : List ℚ, rsiGuiModern closes 14 = padWilderRSI closes 14) ∧
    (∀ closes : List ℚ, 15 ≤ closes.length →
      rsiEnhanced closes = cutlerRSI closes 14) := by
  constructor
  · intro closes
    cases closes with
    | nil => rfl
    | cons c cs =>
      simp only [rsiGuiModern, padWilderRSI, gains, losses, smoothLast,
        take14_cons_zero, drop14_cons_zero, List.length_cons, List.length_map,
        diffs_length, List.sum_cons, zero_add]
      by_cases h : cs.length + 1 < 14
      · simp [h]
      · simp only [h, if_false, Option.some_bind]
        rw [← List.map_take, ← List.map_drop]
        norm_num
  · intro closes h
    cases closes with
    | nil => simp at h
    | cons c cs =>
      have hcs : 14 ≤ cs.length := by simpa using h
      have hd : ∀ l : List ℚ, (0 :: l).drop (cs.length + 1 - 14) =
          l.drop (cs.length - 14) := by
        intro l
        have he : cs.length + 1 - 14 = (cs.length - 14) + 1 := by omega
        rw [he, List.drop_succ_cons]
      simp only [rsiEnhanced, cutlerRSI, gains, losses, rollMeanLast,
        List.length_cons, List.length_map, diffs_length, hd]
      have h1 : ¬ (cs.length + 1 < 14) := by omega
      have h2 : ¬ (cs.length < 14) := by omega
      simp only [h1, h2, if_false, Option.some_bind]
      rw [← List.map_drop, ← List.map_drop]

/-- Witness for C1 (amended) at the concrete series `closesC1`. -/
theorem c1_rsi_formula_amended_witness :
    rsiGuiModern closesC1 14 = padWilderRSI closesC1 14 ∧
    rsiEnhanced closesC1 = cutlerRSI closesC1 14 :=
  ⟨c1_rsi_formula_amended.1 closesC1,
   c1_rsi_formula_amended.2 closesC1 (by decide)⟩

/-- Claim C5 (amended): the first-run lookback - of the RSI monitor and
of the Donchian monitor alike - walks the last `min(10, available - 1)`
candles from oldest to newest, skips candles whose timestamp is already
in the dedup store, alerts on threshold crossings - and marks in the
dedup store exactly the timestamps of the candles it alerted on, not
every scanned candle: after either lookback a timestamp is in the store
iff it was there before or some emitted lookback alert carries it. -/
theorem c5_lookback_marks_only_alerted :
    (∀ (ha : Bool) (cs : List Candle) (S : List Nat) (ts : Nat),
      ts ∈ (rsiLookback ha cs S).2 ↔
        ts ∈ S ∨ ∃ a ∈ (rsiLookback ha cs S).1, a.ts = ts) ∧
    (∀ (ha : Bool) (cs : List Candle) (S : List Nat) (ts : Nat),
      ts ∈ (donchianLookback ha cs S).2 ↔
        ts ∈ S ∨ ∃ a ∈ (donchianLookback ha cs S).1, a.ts = ts) := by
  constructor
  · intro ha cs S ts
    unfold rsiLookback
    exact rsiLookback_fold_inv ha cs S _ ([], S) (by simp) ts
  · intro ha cs S ts
    unfold donchianLookback
    exact donchianLookback_fold_inv ha cs S _ ([], S) (by simp) ts

/-- Claim C6 (amended): in main_enhanced every scripted polling cycle is
attempted no matter which cycles raise (the `try`/`except` lives inside
the loop); in gui_modern the worker attempts cycles only up to and
including the first raising one - the exception is caught and reported
once, but it ends the monitor thread, so no later cycle runs. -/
theorem c6_exception_containment_amended :
    (∀ script : List Bool, rsi_worker_cycles_enhanced script = script.length) ∧
    (∀ script : List Bool, rsi_worker_cycles_guiModern script =
      min script.length ((script.takeWhile (fun b => !b)).length + 1)) := by
  constructor
  · intro script
    induction script with
    | nil => rfl
    | cons b rest ih => simp [rsi_worker_cycles_enhanced, ih, Nat.add_comm]
  · intro script
    induction script with
    | nil => rfl
    | cons b rest ih =>
      cases b
      · simp only [rsi_worker_cycles_guiModern, ih, List.takeWhile_cons,
          Bool.not_false, if_true, List.length_cons]
        simp
        omega
      · simp [rsi_worker_cycles_guiModern, List.takeWhile_cons]

/-- Claim C8 (confirmed): for every candle series and every index, the
close series the lookback builds for the prefix ending at that index -
including re-applying the Heikin-Ashi transform to the prefix when
configured - is exactly the prefix of the live close series, and hence
the lookback RSI at that index equals the live RSI computation run on
`series[0:i+1]`; there is no special-casing of any index. -/
theorem c8_lookback_prefix_equivalence :
    ∀ (ha : Bool) (cs : List Candle) (i : Nat),
      lookbackCloses ha cs i = (closeSeries ha cs).take (i + 1) ∧
      rsiLookbackAt ha cs i = rsiGuiModern ((closeSeries ha cs).take (i + 1)) 14 := by
  intro ha cs i
  have h : lookbackCloses ha cs i = (closeSeries ha cs).take (i + 1) := by
    cases ha
    · simp [lookbackCloses, closeSeries, List.map_take]
    · simp [lookbackCloses, closeSeries, heikin_ashi_take, List.map_take]
  exact ⟨h, by rw [rsiLookbackAt, h]⟩

/-- The Heikin-Ashi recurrence tail yields one candle per input candle. -/
theorem haRec_length (po pc : ℚ) (cs : List Candle) :
    (haRec po pc cs).length = cs.length := by
  induction cs generalizing po pc with
  | nil => rfl
  | cons c cs ih => simp [haRec, ih]

/-- The Heikin-Ashi transform yields one candle per input candle. -/
theorem heikin_ashi_length (cs : List Candle) :
    (heikin_ashi cs).length = cs.length := by
  cases cs with
  | nil => rfl
  | cons c cs => simp [heikin_ashi, haRec_length]

/-- The high series has one entry per candle under either candle type. -/
theorem highSeries_length (ha : Bool) (cs : List Candle) :
    (highSeries ha cs).length = cs.length := by
  cases ha <;> simp [highSeries, heikin_ashi_length]

/-- The low series has one entry per candle under either candle type. -/
theorem lowSeries_length (ha : Bool) (cs : List Candle) :
    (lowSeries ha cs).length = cs.length := by
  cases ha <;> simp [lowSeries, heikin_ashi_length]

/-- A defined rolling maximum is a member of, and an upper bound of, the
window of the final `w` entries. -/
theorem rollMaxLast_spec (w : Nat) (xs : List ℚ) (b : ℚ)
    (h : rollMaxLast w xs = some b) :
    b ∈ xs.drop (xs.length - w) ∧ ∀ x ∈ xs.drop (xs.length - w), x ≤ b := by
  rw [rollMaxLast] at h
  split_ifs at h with hc
  refine ⟨List.max?_mem max_choice h, fun x hx => ?_⟩
  exact (List.max?_le_iff (fun a b c => max_le_iff) h).1 le_rfl x hx

/-- A defined rolling minimum is a member of, and a lower bound of, the
window of the final `w` entries. -/
theorem rollMinLast_spec (w : Nat) (xs : List ℚ) (b : ℚ)
    (h : rollMinLast w xs = some b) :
    b ∈ xs.drop (xs.length - w) ∧ ∀ x ∈ xs.drop (xs.length - w), b ≤ x := by
  rw [rollMinLast] at h
  split_ifs at h with hc
  refine ⟨List.min?_mem min_choice h, fun x hx => ?_⟩
  exact (List.le_min?_iff (fun a b c => le_min_iff) h).1 le_rfl x hx

/-- The rolling maximum is defined whenever the series fills the window. -/
theorem rollMaxLast_isSome (w : Nat) (xs : List ℚ) (hw : w ≠ 0)
    (h : w ≤ xs.length) : ∃ b, rollMaxLast w xs = some b := by
  have hlen : (xs.drop (xs.length - w)).length = w := by
    rw [List.length_drop]
    omega
  have hne : xs.drop (xs.length - w) ≠ [] := by
    intro hnil
    rw [hnil] at hlen
    simp at hlen
    omega
  rw [rollMaxLast, if_neg (by omega)]
  cases hm : (xs.drop (xs.length - w)).max? with
  | none => exact absurd (List.max?_eq_none_iff.1 hm) hne
  | some b => exact ⟨b, rfl⟩

/-- The rolling minimum is defined whenever the series fills the window. -/
theorem rollMinLast_isSome (w : Nat) (xs : List ℚ) (hw : w ≠ 0)
    (h : w ≤ xs.length) : ∃ b, rollMinLast w xs = some b := by
  have hlen : (xs.drop (xs.length - w)).length = w := by
    rw [List.length_drop]
    omega
  have hne : xs.drop (xs.length - w) ≠ [] := by
    intro hnil
    rw [hnil] at hlen
    simp at hlen
    omega
  rw [rollMinLast, if_neg (by omega)]
  cases hm : (xs.drop (xs.length - w)).min? with
  | none => exact absurd (List.min?_eq_none_iff.1 hm) hne
  | some b => exact ⟨b, rfl⟩

/-- Claim C3 (amended): a defined rolling band is exactly the maximum
(resp. minimum) over its window of most recent entries, so gui_modern's
prior-close check band - built on the series with the still-forming
candle dropped - is the max over the most recent 20 completed candles,
and it is defined once at least 21 candles exist (with exactly 20 the
exclusion band is NaN and the prior-close check is silently false); the
live reported bands include the current candle; but in main_enhanced the
prior close is checked against the bands computed over the full series
including the still-forming candle: its cycle alerts exactly when the
prior close crosses an inclusive band (and the current candle's
timestamp is not deduplicated). -/
theorem c3_donchian_bands_amended :
    (∀ (w : Nat) (xs : List ℚ) (b : ℚ), rollMaxLast w xs = some b →
      b ∈ xs.drop (xs.length - w) ∧ ∀ x ∈ xs.drop (xs.length - w), x ≤ b) ∧
    (∀ (w : Nat) (xs : List ℚ) (b : ℚ), rollMinLast w xs = some b →
      b ∈ xs.drop (xs.length - w) ∧ ∀ x ∈ xs.drop (xs.length - w), b ≤ x) ∧
    (∀ (ha : Bool) (cs : List Candle), 21 ≤ cs.length →
      ∃ b, rollMaxLast 20 ((highSeries ha cs).dropLast) = some b) ∧
    (∀ (ha : Bool) (cs : List Candle), 11 ≤ cs.length →
      ∃ b, rollMinLast 10 ((lowSeries ha cs).dropLast) = some b) ∧
    (∀ (ha : Bool) (cs : List Candle) (S : List Nat), 20 ≤ cs.length →
      ((donchian_cycle_enhanced ha cs S).2.1 ≠ [] ↔
        tsAt cs (cs.length - 1) ∉ S ∧
          (geBand (((closeSeries ha cs)[(closeSeries ha cs).length - 2]?).getD 0)
             (rollMaxLast 20 (highSeries ha cs)) ∨
           leBand (((closeSeries ha cs)[(closeSeries ha cs).length - 2]?).getD 0)
             (rollMinLast 10 (lowSeries ha cs))))) := by
  refine ⟨rollMaxLast_spec, rollMinLast_spec, fun ha cs h => ?_, fun ha cs h => ?_,
    fun ha cs S h => ?_⟩
  · apply rollMaxLast_isSome 20 _ (by norm_num)
    rw [List.length_dropLast, highSeries_length]
    omega
  · apply rollMinLast_isSome 10 _ (by norm_num)
    rw [List.length_dropLast, lowSeries_length]
    omega
  · have h2 : ¬ (cs.length < 20) := by omega
    simp only [donchian_cycle_enhanced, h2, if_false]
    split_ifs <;> simp_all

/-- Witness for C3 (amended): on `cs21` the inclusive upper band is 200,
a member of and an upper bound of the final-20 window. -/
theorem c3_donchian_bands_witness :
    (200 : ℚ) ∈ (highSeries false cs21).drop ((highSeries false cs21).length - 20) ∧
    ∀ x ∈ (highSeries false cs21).drop ((highSeries false cs21).length - 20),
      x ≤ 200 :=
  c3_donchian_bands_amended.1 20 (highSeries false cs21) 200
    (by with_unfolding_all rfl)

/-- Claim C4 (amended): both RSI monitor variants gate a polling cycle on
100 fetched candles, not on `period + 1 = 15`: below 100 the cycle
reports the transient not-enough-candles condition, emits no alert, and
leaves the monitor state untouched (the worker loop then retries at the
next boundary); with at least 100 candles the cycle completes and its
result carries the RSI value that was evaluated against the
thresholds. -/
theorem c4_candle_gate_amended :
    (∀ (t : Nat) (ha : Bool) (cs : List Candle) (st : MonitorState),
      cs ≠ [] → cs.length < 100 →
      do_rsi_analysis (some t) ha cs st = ⟨.notEnoughCandles, [], st⟩) ∧
    (∀ (t : Nat) (ha : Bool) (cs : List Candle) (st : MonitorState),
      100 ≤ cs.length →
      (do_rsi_analysis (some t) ha cs st).result =
        .ok (rsiGuiModern (closeSeries ha cs) 14)) ∧
    (∀ (ha : Bool) (cs : List Candle) (S : List Nat),
      cs.length < 100 → rsi_cycle_enhanced ha cs S = (.notEnoughCandles, [], S)) ∧
    (∀ (ha : Bool) (cs : List Candle) (S : List Nat),
      100 ≤ cs.length →
      (rsi_cycle_enhanced ha cs S).1 = .ok (rsiEnhanced (closeSeries ha cs))) := by
  refine ⟨fun t ha cs st h0 h1 => ?_, fun t ha cs st h1 => ?_,
    fun ha cs S h1 => ?_, fun ha cs S h1 => ?_⟩
  · have he : cs.isEmpty = false := by
      cases cs
      · simp at h0
      · rfl
    simp [do_rsi_analysis, he, h1]
  · have he : cs.isEmpty = false := by
      cases cs
      · simp at h1
      · rfl
    have h2 : ¬ (cs.length < 100) := by omega
    simp only [do_rsi_analysis, he, Bool.false_eq_true, if_false, h2]
  · simp [rsi_cycle_enhanced, h1]
  · have h2 : ¬ (cs.length < 100) := by omega
    simp only [rsi_cycle_enhanced, h2, if_false]
    split_ifs <;> rfl

/-- Witness for C4 (amended): 50 rising candles are refused while 100
constant candles are evaluated. -/
theorem c4_candle_gate_witness :
    do_rsi_analysis (some 1) false linear50 ⟨[], false⟩ =
      ⟨.notEnoughCandles, [], ⟨[], false⟩⟩ ∧
    (do_rsi_analysis (some 1) false const100 ⟨[], true⟩).result =
      .ok (rsiGuiModern (closeSeries false const100) 14) :=
  ⟨c4_candle_gate_amended.1 1 false linear50 ⟨[], false⟩
      (by with_unfolding_all decide) (by with_unfolding_all decide),
   c4_candle_gate_amended.2.1 1 false const100 ⟨[], true⟩
      (by with_unfolding_all decide)⟩

/-- Claim C9 (amended): whenever the smoothed averages are defined, a
zero average loss with a positive average gain yields RSI exactly 100 -
the pandas division produces infinity rather than raising - and a zero
average loss with a zero average gain yields an undefined (NaN) RSI, on
which no threshold comparison succeeds; the spec's value 50 for the
constant-close case is not what the code computes. -/
theorem c9_zero_division_amended :
    ∀ (closes : List ℚ) (period : Nat) (ag al : ℚ),
      smoothLast period (gains closes) = some ag →
      smoothLast period (losses closes) = some al →
      (al = 0 → 0 < ag → rsiGuiModern closes period = some 100) ∧
      (al = 0 → ag = 0 → rsiGuiModern closes period = none) := by
  intro closes period ag al hg hl
  constructor
  · intro h0 hpos
    simp [rsiGuiModern, hg, hl, rsiOfAvg, h0, hpos.ne']
  · intro h0 hag
    simp [rsiGuiModern, hg, hl, rsiOfAvg, h0, hag]

/-- Witness for C9 (amended): 16 rising closes give RSI 100; 20 constant
closes give an undefined RSI. -/
theorem c9_zero_division_witness :
    rsiGuiModern risingCloses 14 = some 100 ∧
    rsiGuiModern constCloses 14 = none :=
  ⟨(c9_zero_division_amended risingCloses 14 (2575 / 2744) 0
      (by with_unfolding_all rfl) (by with_unfolding_all rfl)).1 rfl (by norm_num),
   (c9_zero_division_amended constCloses 14 0 0
      (by with_unfolding_all rfl) (by with_unfolding_all rfl)).2 rfl rfl⟩

/-- Claim C10 (confirmed): the instrument resolver is a total function
into an optional token - a failed catalogue (re)fetch yields `none`, a
symbol matching no catalogue row (after trimming and upper-casing both
sides) yields `none`, a returned token always comes from a
case-insensitively matching row, any two symbols with the same
normalisation resolve identically, and the monitor's cycle maps a `none`
token to the single Instrument-token-not-found outcome, making a
transient fetch failure indistinguishable from an unknown symbol at that
interface. -/
theorem c10_resolver_contract :
    (∀ (fetch : String → Option (List Instrument)) (s : String),
      fetch (symbolExchange s.trim.toUpper).1 = none →
      resolve_instrument_token fetch s = none) ∧
    (∀ (fetch : String → Option (List Instrument)) (s : String)
        (insts : List Instrument),
      fetch (symbolExchange s.trim.toUpper).1 = some insts →
      (∀ i ∈ insts, i.tradingsymbol.toUpper ≠ (symbolExchange s.trim.toUpper).2) →
      resolve_instrument_token fetch s = none) ∧
    (∀ (fetch : String → Option (List Instrument)) (s : String) (tok : Nat),
      resolve_instrument_token fetch s = some tok →
      ∃ insts, fetch (symbolExchange s.trim.toUpper).1 = some insts ∧
        ∃ i ∈ insts, i.tradingsymbol.toUpper = (symbolExchange s.trim.toUpper).2 ∧
          i.instrument_token = tok) ∧
    (∀ (ha : Bool) (cs : List Candle) (st : MonitorState),
      do_rsi_analysis none ha cs st = ⟨.tokenNotFound, [], st⟩) ∧
    (∀ (fetch : String → Option (List Instrument)) (s₁ s₂ : String),
      s₁.trim.toUpper = s₂.trim.toUpper →
      resolve_instrument_token fetch s₁ = resolve_instrument_token fetch s₂) := by
  refine ⟨fun fetch s h => ?_, fun fetch s insts h hnone => ?_,
    fun fetch s tok h => ?_, fun ha cs st => rfl, fun fetch s₁ s₂ h => ?_⟩
  · simp [resolve_instrument_token, h]
  · have hf : insts.find?
        (fun i => i.tradingsymbol.toUpper == (symbolExchange s.trim.toUpper).2) =
          none := by
      rw [List.find?_eq_none]
      intro i hi
      simpa using hnone i hi
    simp [resolve_instrument_token, h, hf]
  · rw [resolve_instrument_token] at h
    simp only [Option.bind_eq_some, Option.map_eq_some'] at h
    obtain ⟨insts, hfetch, i, hfind, htok⟩ := h
    refine ⟨insts, hfetch, i, List.mem_of_find?_eq_some hfind, ?_, htok⟩
    have hp := List.find?_some hfind
    simpa using hp
  · simp [resolve_instrument_token, h]

/-- Witness for C10: a failing catalogue fetch resolves NATGASMINI to
`none`, and the cycle reports the token-not-found outcome. -/
theorem c10_resolver_witness :
    resolve_instrument_token (fun _ => none) "NATGASMINI" = none ∧
    do_rsi_analysis none false [] ⟨[], true⟩ = ⟨.tokenNotFound, [], ⟨[], true⟩⟩ :=
  ⟨c10_resolver_contract.1 (fun _ => none) "NATGASMINI" rfl,
   c10_resolver_contract.2.2.2.1 false [] ⟨[], true⟩⟩

end ZerodhaAlog
